import Mathlib

/-!
Verification development for the Argos detection core: a shallow embedding of
the zone-geometry manager, the alert notifier, the fusion engine and the
pipeline manager, with theorems checking the documented behaviour against the
embedded code.  Python floats are modelled as rationals, Python dicts as
insertion-ordered association lists, and the in-place mutation performed by the
fusion strategies as updates on an explicit store of detections.
-/

namespace Argos

/-- Lookup in an insertion-ordered association list (Python dict read). -/
def alookup {κ α : Type} [DecidableEq κ] : List (κ × α) → κ → Option α
  | [], _ => none
  | (k0, v0) :: rest, k => if k = k0 then some v0 else alookup rest k

/-- Update-or-append on an insertion-ordered association list (Python dict
assignment: an existing key keeps its position, a new key is appended). -/
def ainsert {κ α : Type} [DecidableEq κ] : List (κ × α) → κ → α → List (κ × α)
  | [], k, v => [(k, v)]
  | (k0, v0) :: rest, k, v =>
      if k = k0 then (k, v) :: rest else (k0, v0) :: ainsert rest k v

@[simp] theorem alookup_nil {κ α : Type} [DecidableEq κ] (k : κ) :
    alookup ([] : List (κ × α)) k = none := rfl

@[simp] theorem alookup_cons {κ α : Type} [DecidableEq κ] (k0 : κ) (v0 : α)
    (rest : List (κ × α)) (k : κ) :
    alookup ((k0, v0) :: rest) k = if k = k0 then some v0 else alookup rest k := rfl

@[simp] theorem ainsert_nil {κ α : Type} [DecidableEq κ] (k : κ) (v : α) :
    ainsert ([] : List (κ × α)) k v = [(k, v)] := rfl

@[simp] theorem ainsert_cons {κ α : Type} [DecidableEq κ] (k0 : κ) (v0 : α)
    (rest : List (κ × α)) (k : κ) (v : α) :
    ainsert ((k0, v0) :: rest) k v =
      if k = k0 then (k, v) :: rest else (k0, v0) :: ainsert rest k v := rfl

@[simp] theorem alookup_ainsert_self {κ α : Type} [DecidableEq κ]
    (l : List (κ × α)) (k : κ) (v : α) : alookup (ainsert l k v) k = some v := by
  induction l with
  | nil => simp [ainsert, alookup]
  | cons hd tl ih =>
      obtain ⟨k0, v0⟩ := hd
      by_cases h : k = k0 <;> simp [ainsert, alookup, h, ih]

/-! ## Zone geometry (src/backend/app/zones/geometry.py) -/

/-- Zone severity, from the ZoneType enum. -/
inductive ZoneType
  | warning
  | danger
deriving DecidableEq, Repr

/-- A detection zone (the Zone dataclass); polygon points are normalised 0-1
coordinates, modelled as rationals. -/
structure Zone where
  id : String
  name : String
  zone_type : ZoneType
  polygon : List (ℚ × ℚ)
  color : String := "#f59e0b"
  enabled : Bool := true
deriving DecidableEq, Repr

/-- An enter/inside/exit transition (the ZoneEvent dataclass). -/
structure ZoneEvent where
  tracker_id : ℤ
  class_name : String
  zone_id : String
  zone_name : String
  zone_type : ZoneType
  event_type : String
  timestamp : ℚ
deriving DecidableEq, Repr

/-- A compiled polygon, standing for the prepared shapely geometry that
ZoneManager.add_zone stores per zone. -/
structure PreparedPolygon where
  points : List (ℚ × ℚ)
deriving DecidableEq, Repr

/-- Modelled from the spec: the external shapely library's strict point-in-
polygon containment test used by the prepared geometry, realised as the
standard even-odd ray-crossing rule on exact rational coordinates.  One edge
of the crossing test: the horizontal ray from the query point crosses the
segment a-b. -/
def rayCrossesEdge (p a b : ℚ × ℚ) : Bool :=
  (decide (a.2 > p.2) != decide (b.2 > p.2)) &&
    decide (p.1 < a.1 + (p.2 - a.2) * (b.1 - a.1) / (b.2 - a.2))

/-- The closed ring of edges of a polygon given as a vertex list. -/
def polyEdges (pts : List (ℚ × ℚ)) : List ((ℚ × ℚ) × (ℚ × ℚ)) :=
  match pts with
  | [] => []
  | p0 :: _ => pts.zip (pts.drop 1 ++ [p0])

/-- Modelled from the spec: shapely prepared-polygon containment (the point is
strictly inside the polygon), by parity of ray crossings. -/
def polyContains (poly : PreparedPolygon) (p : ℚ × ℚ) : Bool :=
  (polyEdges poly.points).foldl (fun acc e => acc != rayCrossesEdge p e.1 e.2) false

/-- Modelled from the spec: constructing the external shapely Polygon raises
for invalid geometry - fewer than 3 polygon points (malformed coordinate
tuples are likewise rejected by the library; in this typed embedding they
cannot be expressed). -/
def mkPolygon (pts : List (ℚ × ℚ)) : Except Unit PreparedPolygon :=
  if pts.length < 3 then .error () else .ok ⟨pts⟩

/-- The mutable state of ZoneManager: the zone registry, the per-zone prepared
polygons, and the per-identity zone-membership snapshot. -/
structure ZMState where
  zones : List (String × Zone)
  prepared : List (String × PreparedPolygon)
  object_zones : List (ℤ × List String)
deriving DecidableEq, Repr

/-- ZoneManager.add_zone: the registry entry is assigned first, then the
polygon is compiled and stored.  When compilation raises (invalid geometry)
the exception propagates with the registry already updated and the prepared
index untouched, which the error value records. -/
def add_zone (s : ZMState) (z : Zone) : Except ZMState ZMState :=
  let s1 : ZMState := { s with zones := ainsert s.zones z.id z }
  match mkPolygon z.polygon with
  | .error _ => .error s1
  | .ok p => .ok { s1 with prepared := ainsert s1.prepared z.id p }

/-- The per-entry body of ZoneManager.check_point's loop: resolve the zone of
one prepared-index entry and keep it when it is enabled and its polygon
contains the normalised point.  (The source reads self.zones[zone_id]
unconditionally; a key missing from the registry cannot occur in states built
by the manager's own operations and is skipped here.) -/
def check_point_f (zs : List (String × Zone)) (pt : ℚ × ℚ)
    (kp : String × PreparedPolygon) : Option Zone :=
  match alookup zs kp.1 with
  | some zone => if zone.enabled && polyContains kp.2 pt then some zone else none
  | none => none

/-- ZoneManager.check_point: normalise the pixel point by the frame size and
collect every enabled zone whose prepared polygon contains it, iterating the
prepared index in insertion order. -/
def check_point (s : ZMState) (x y : ℚ) (frame_width frame_height : ℚ) : List Zone :=
  s.prepared.filterMap (check_point_f s.zones (x / frame_width, y / frame_height))

/-- The fields of a tracked object's dict that check_objects reads. -/
structure TrackedObj where
  tracker_id : ℤ
  class_name_es : String
  bottom_center : ℚ × ℚ
deriving DecidableEq, Repr

/-- Build one ZoneEvent as check_objects does. -/
def mkZoneEvent (tid : ℤ) (cls : String) (zone_id : String) (z : Zone)
    (kind : String) (ts : ℚ) : ZoneEvent :=
  { tracker_id := tid, class_name := cls, zone_id := zone_id, zone_name := z.name,
    zone_type := z.zone_type, event_type := kind, timestamp := ts }

/-- The per-object body of ZoneManager.check_objects: containment check, diff
against the previous snapshot, and the enter/inside/exit event batches (exit
only for zone ids still present in the registry).  Returns the events and the
identity's new snapshot entry. -/
def object_events (s : ZMState) (o : TrackedObj) (fw fh ts : ℚ) :
    List ZoneEvent × (ℤ × List String) :=
  let containing := check_point s o.bottom_center.1 o.bottom_center.2 fw fh
  let current := containing.map Zone.id
  let previous := (alookup s.object_zones o.tracker_id).getD []
  let entered := current.filter fun zid => decide (¬ zid ∈ previous)
  let still := current.filter fun zid => decide (zid ∈ previous)
  let exited := previous.filter fun zid => decide (¬ zid ∈ current)
  let enterEvents := entered.filterMap fun zid =>
    (alookup s.zones zid).map fun z => mkZoneEvent o.tracker_id o.class_name_es zid z "enter" ts
  let insideEvents := still.filterMap fun zid =>
    (alookup s.zones zid).map fun z => mkZoneEvent o.tracker_id o.class_name_es zid z "inside" ts
  let exitEvents := exited.filterMap fun zid =>
    (alookup s.zones zid).map fun z => mkZoneEvent o.tracker_id o.class_name_es zid z "exit" ts
  (enterEvents ++ insideEvents ++ exitEvents, (o.tracker_id, current))

/-- ZoneManager.check_objects: process every current object against the old
snapshot, then replace the snapshot with the one derived from this frame's
objects (identities absent from the input retain no snapshot and emit no
events). -/
def check_objects (s : ZMState) (objects : List TrackedObj) (fw fh ts : ℚ) :
    List ZoneEvent × ZMState :=
  let r := objects.foldl
    (fun (acc : List ZoneEvent × List (ℤ × List String)) o =>
      let oe := object_events s o fw fh ts
      (acc.1 ++ oe.1, ainsert acc.2 oe.2.1 oe.2.2))
    ([], [])
  (r.1, { s with object_zones := r.2 })

/-! ## Alert notifier (src/backend/app/alerts/notifier.py) -/

/-- Alert priority levels (the AlertPriority enum). -/
inductive AlertPriority
  | low
  | normal
  | high
  | urgent
deriving DecidableEq, Repr

/-- An emitted alert (the Alert dataclass). -/
structure Alert where
  id : String
  title : String
  message : String
  priority : AlertPriority
  zone_type : ZoneType
  tracker_id : ℤ
  class_name : String
  timestamp : ℚ
  sent : Bool := false
deriving DecidableEq, Repr

/-- The AlertConfig dataclass (delivery endpoint fields included verbatim). -/
structure AlertConfig where
  enabled : Bool := true
  ntfy_server : String := "https://ntfy.sh"
  ntfy_topic : String := "argos-alerts"
  min_confidence : ℚ := 7/10
  min_frames_in_zone : Nat := 3
  cooldown_seconds : ℚ := 30
  alert_classes : List String := ["persona", "perro", "gato", "niño"]
deriving DecidableEq, Repr

/-- The notifier's debounce state: per (identity, zone) frame counters, per
(class, zone) last-alert timestamps, and the alert history. -/
structure NotifierState where
  frame_counts : List (String × Nat) := []
  last_alerts : List (String × ℚ) := []
  alert_history : List Alert := []
deriving DecidableEq, Repr

/-- AlertNotifier._get_key: the "tracker:zone" counter key. -/
def get_key (tracker_id : ℤ) (zone_id : String) : String :=
  toString tracker_id ++ ":" ++ zone_id

/-- AlertNotifier._get_cooldown_key: the "class:zone" cooldown key. -/
def get_cooldown_key (class_name : String) (zone_id : String) : String :=
  class_name ++ ":" ++ zone_id

/-- AlertNotifier._is_in_cooldown at clock time now; a missing entry defaults
to timestamp 0 as in the source. -/
def is_in_cooldown (cfg : AlertConfig) (st : NotifierState) (now : ℚ)
    (class_name zone_id : String) : Bool :=
  decide ((now - ((alookup st.last_alerts (get_cooldown_key class_name zone_id)).getD 0))
    < cfg.cooldown_seconds)

/-- Truncation toward zero, matching Python's int() on a timestamp. -/
def truncInt (q : ℚ) : ℤ := q.num / (q.den : ℤ)

/-- Python str.capitalize: first character upper-cased, the rest lower-cased. -/
def pyCapitalize (s : String) : String := s.toLower.capitalize

/-- AlertNotifier._create_alert. -/
def create_alert (event : ZoneEvent) : Alert :=
  let is_danger := event.zone_type = ZoneType.danger
  let priority := if is_danger then AlertPriority.urgent else AlertPriority.high
  let title := if is_danger then "🚨 ¡ALERTA CRÍTICA!" else "⚠️ Advertencia"
  let emoji := if is_danger then "🚨" else "⚠️"
  let message := emoji ++ " " ++ pyCapitalize event.class_name ++ " detectado en " ++ event.zone_name
  let alert_id := toString event.tracker_id ++ "-" ++ event.zone_id ++ "-"
    ++ toString (truncInt event.timestamp)
  { id := alert_id, title := title, message := message, priority := priority,
    zone_type := event.zone_type, tracker_id := event.tracker_id,
    class_name := event.class_name, timestamp := event.timestamp }

/-- The per-event body of AlertNotifier.process_zone_events: filter to
qualifying enter/inside events of allow-listed classes, bump or reset the
frame counter, and emit an alert when the counter has reached the minimum and
the (class, zone) pair is not in cooldown. -/
def notifier_step (cfg : AlertConfig) (now : ℚ)
    (acc : NotifierState × List Alert) (e : ZoneEvent) : NotifierState × List Alert :=
  let st := acc.1
  let alerts := acc.2
  if e.event_type = "enter" ∨ e.event_type = "inside" then
    if e.class_name.toLower ∈ cfg.alert_classes.map String.toLower then
      let key := get_key e.tracker_id e.zone_id
      let counts :=
        if e.event_type = "enter" then ainsert st.frame_counts key 1
        else ainsert st.frame_counts key ((alookup st.frame_counts key).getD 0 + 1)
      let st1 : NotifierState := { st with frame_counts := counts }
      let frame_count := (alookup counts key).getD 0
      if frame_count < cfg.min_frames_in_zone then (st1, alerts)
      else if is_in_cooldown cfg st1 now e.class_name e.zone_id then (st1, alerts)
      else if frame_count = cfg.min_frames_in_zone ∨
          (cfg.min_frames_in_zone < frame_count ∧
            ¬ is_in_cooldown cfg st1 now e.class_name e.zone_id) then
        let a := create_alert e
        ({ st1 with
            last_alerts := ainsert st1.last_alerts (get_cooldown_key e.class_name e.zone_id) now,
            alert_history := st1.alert_history ++ [a] },
          alerts ++ [a])
      else (st1, alerts)
    else (st, alerts)
  else (st, alerts)

/-- AlertNotifier.process_zone_events at clock time now: fold the per-event
body over the batch, then garbage-collect frame counters whose (identity,
zone) key does not occur in this batch. -/
def process_zone_events (cfg : AlertConfig) (st : NotifierState)
    (events : List ZoneEvent) (now : ℚ) : List Alert × NotifierState :=
  if cfg.enabled then
    let r := events.foldl (notifier_step cfg now) (st, [])
    let active := events.map fun e => get_key e.tracker_id e.zone_id
    (r.2, { r.1 with frame_counts := r.1.frame_counts.filter fun kv => decide (kv.1 ∈ active) })
  else ([], st)

/-! ## Detection data model (src/backend/app/detection/base_detector.py) -/

/-- Detection backend types. -/
inductive BackendType
  | yolo
  | deeplabcut
  | sleap
deriving DecidableEq, Repr

/-- A pose keypoint. -/
structure Keypoint where
  x : ℤ
  y : ℤ
  confidence : ℚ
  name : String := ""
deriving DecidableEq, Repr

/-- A single detection; the bbox is (x1, y1, x2, y2).  Coordinates are
rationals (the source annotates ints but all bbox arithmetic is exact). -/
structure Detection where
  class_id : ℤ
  class_name : String
  class_name_es : String
  confidence : ℚ
  bbox : ℚ × ℚ × ℚ × ℚ
  keypoints : List Keypoint := []
  tracker_id : Option ℤ := none
  backend_source : Option BackendType := none
deriving DecidableEq, Repr

instance : Inhabited Detection :=
  ⟨{ class_id := 0, class_name := "", class_name_es := "", confidence := 0,
     bbox := (0, 0, 0, 0) }⟩

/-- Fusion strategies (the FusionStrategy enum). -/
inductive FusionStrategy
  | consensus
  | cascade
  | parallel_merge
  | weighted
  | first_wins
deriving DecidableEq, Repr

/-- The serialised value of a strategy, as in the Python str-enum. -/
def strategyValue : FusionStrategy → String
  | .consensus => "consensus"
  | .cascade => "cascade"
  | .parallel_merge => "parallel"
  | .weighted => "weighted"
  | .first_wins => "first_wins"

/-- The FusionConfig dataclass. -/
structure FusionConfig where
  strategy : FusionStrategy := .parallel_merge
  min_backends_agree : Nat := 1
  iou_threshold : ℚ := 1/2
  prefer_pose_from : Option BackendType := none
  confidence_aggregation : String := "max"
  backend_weights : List (BackendType × ℚ) := []
deriving DecidableEq, Repr

/-! ## Fusion engine (src/backend/app/detection/fusion_engine.py)

Python detections are shared mutable objects: every DetectionResult holds
references, and the strategies assign to their fields in place.  The embedding
makes the heap explicit: a Store lists the detection objects, and each
backend's result refers to them by index, so an in-place field assignment
becomes an update of the store. -/

/-- The heap of detection objects produced by the backends this frame. -/
abbrev Store := List Detection

/-- Read a detection object from the store (indices produced by the engine are
always in range). -/
def getDet (store : Store) (i : Nat) : Detection := store.getD i default

/-- One backend's DetectionResult in the heap model: its identity, type and
the store indices of its detections. -/
structure BackendOutput where
  backend_id : String
  backend_type : BackendType
  refs : List Nat
  inference_time_ms : ℚ := 0
  frame_width : ℤ := 0
  frame_height : ℤ := 0
deriving DecidableEq, Repr

/-- FusionEngine._calculate_iou, verbatim on rationals. -/
def calculate_iou (box1 box2 : ℚ × ℚ × ℚ × ℚ) : ℚ :=
  let x1_1 := box1.1; let y1_1 := box1.2.1; let x2_1 := box1.2.2.1; let y2_1 := box1.2.2.2
  let x1_2 := box2.1; let y1_2 := box2.2.1; let x2_2 := box2.2.2.1; let y2_2 := box2.2.2.2
  let x1_i := max x1_1 x1_2
  let y1_i := max y1_1 y1_2
  let x2_i := min x2_1 x2_2
  let y2_i := min y2_1 y2_2
  if x2_i ≤ x1_i ∨ y2_i ≤ y1_i then 0
  else
    let intersection := (x2_i - x1_i) * (y2_i - y1_i)
    let area1 := (x2_1 - x1_1) * (y2_1 - y1_1)
    let area2 := (x2_2 - x1_2) * (y2_2 - y1_2)
    let union := area1 + area2 - intersection
    if union > 0 then intersection / union else 0

/-- FusionEngine._merge_keypoints. -/
def merge_keypoints (cfg : FusionConfig) (det1 det2 : Option Detection) : List Keypoint :=
  match det1 with
  | none => match det2 with
      | some d2 => d2.keypoints
      | none => []
  | some d1 =>
    match det2 with
    | none => d1.keypoints
    | some d2 =>
      match cfg.prefer_pose_from with
      | some pref =>
          if d1.backend_source = some pref ∧ d1.keypoints ≠ [] then d1.keypoints
          else if d2.backend_source = some pref ∧ d2.keypoints ≠ [] then d2.keypoints
          else if d2.keypoints.length ≤ d1.keypoints.length then d1.keypoints
          else d2.keypoints
      | none =>
          if d2.keypoints.length ≤ d1.keypoints.length then d1.keypoints
          else d2.keypoints

/-- FusionEngine._aggregate_confidence: the configured aggregation mode, with
max as the fallback for unknown mode strings. -/
def aggregate_confidence (cfg : FusionConfig) (conf1 conf2 : ℚ) : ℚ :=
  match cfg.confidence_aggregation with
  | "max" => max conf1 conf2
  | "min" => min conf1 conf2
  | "mean" => (conf1 + conf2) / 2
  | _ => max conf1 conf2

/-- The in-place tagging loop shared by the strategies: assign
det.backend_source = result.backend_type for every detection of every
result. -/
def tagSources (store : Store) (results : List BackendOutput) : Store :=
  results.foldl
    (fun st r => r.refs.foldl
      (fun st i => st.set i { getDet st i with backend_source := some r.backend_type }) st)
    store

/-- Python max over a non-empty list of rationals (first element seeds the
fold, so the first maximum wins where it matters). -/
def pyMax : List ℚ → ℚ
  | [] => 0
  | c :: cs => cs.foldl max c

/-- Python max(group, key=confidence) over store positions: returns the first
position whose detection attains the maximal confidence. -/
def maxByConf (store : Store) (refs : List Nat) (positions : List Nat) : Nat :=
  match positions with
  | [] => 0
  | p :: ps =>
      (ps.foldl
        (fun (b : Nat × ℚ) q =>
          if (getDet store (refs.getD q 0)).confidence > b.2
          then (q, (getDet store (refs.getD q 0)).confidence) else b)
        (p, (getDet store (refs.getD p 0)).confidence)).1

/-- FusionEngine._consensus_fusion.  With fewer than two results the source
returns the sole result's detections unchanged; otherwise it tags sources,
flattens all (detection, backend id) pairs and greedily clusters by class and
IoU, keeping a cluster only when its detection count reaches
min_backends_agree, with the merged confidence fixed to the cluster mean. -/
def consensus_fusion (cfg : FusionConfig) (store : Store)
    (results : List BackendOutput) : Store × List Detection :=
  if results.length < 2 then
    match results with
    | [] => (store, [])
    | r :: _ => (store, r.refs.map (getDet store))
  else
    let store1 := tagSources store results
    let all : List (Nat × String) :=
      results.flatMap fun r => r.refs.map fun i => (i, r.backend_id)
    let n := all.length
    let r := (List.range n).foldl
      (fun (acc : List Nat × List Detection) i =>
        if i ∈ acc.1 then acc
        else
          let ri := (all.getD i (0, "")).1
          let bi := (all.getD i (0, "")).2
          let d1 := getDet store1 ri
          let matchedPos := (List.range n).filter fun j =>
            decide (i < j) && decide (¬ j ∈ acc.1) &&
              decide (¬ bi = (all.getD j (0, "")).2) &&
              decide (d1.class_id = (getDet store1 (all.getD j (0, "")).1).class_id) &&
              decide (cfg.iou_threshold ≤
                calculate_iou d1.bbox (getDet store1 (all.getD j (0, "")).1).bbox)
          let matching_dets := d1 :: matchedPos.map fun j => getDet store1 (all.getD j (0, "")).1
          if cfg.min_backends_agree ≤ matching_dets.length then
            let avg_conf := (matching_dets.map Detection.confidence).sum
              / (matching_dets.length : ℚ)
            let merged : Detection :=
              { class_id := d1.class_id, class_name := d1.class_name,
                class_name_es := d1.class_name_es, confidence := avg_conf, bbox := d1.bbox,
                keypoints := merge_keypoints cfg (some (matching_dets.getD 0 default))
                  (if 1 < matching_dets.length then some (matching_dets.getD 1 default) else none),
                tracker_id := d1.tracker_id, backend_source := some BackendType.yolo }
            (acc.1 ++ matchedPos ++ [i], acc.2 ++ [merged])
          else (acc.1 ++ matchedPos, acc.2))
      ([], [])
    (store1, r.2)

/-- FusionEngine._parallel_merge.  Tags sources, flattens all detections and
greedily clusters by class and IoU; a non-singleton cluster mutates its
highest-confidence member in place (keypoints from the merge rule, confidence
fixed to the cluster max) and emits that member. -/
def parallel_merge (cfg : FusionConfig) (store : Store)
    (results : List BackendOutput) : Store × List Detection :=
  let store1 := tagSources store results
  let all : List Nat := results.flatMap BackendOutput.refs
  if all.isEmpty then (store1, [])
  else
    let n := all.length
    let r := (List.range n).foldl
      (fun (acc : Store × List Nat × List Nat) i =>
        let st := acc.1
        let used := acc.2.1
        let outRefs := acc.2.2
        if i ∈ used then acc
        else
          let ri := all.getD i 0
          let d1 := getDet st ri
          let matchedPos := (List.range n).filter fun j =>
            decide (i < j) && decide (¬ j ∈ used) &&
              decide (d1.class_id = (getDet st (all.getD j 0)).class_id) &&
              decide (cfg.iou_threshold ≤ calculate_iou d1.bbox (getDet st (all.getD j 0)).bbox)
          let groupPos := i :: matchedPos
          if groupPos.length = 1 then (st, used ++ [i], outRefs ++ [ri])
          else
            let groupDets := groupPos.map fun j => getDet st (all.getD j 0)
            let bestPos := maxByConf st all groupPos
            let bestRef := all.getD bestPos 0
            let bestOld := getDet st bestRef
            let newKps := merge_keypoints cfg (some (groupDets.getD 0 default))
              (if 1 < groupDets.length then some (groupDets.getD 1 default) else none)
            let maxConf := pyMax (groupDets.map Detection.confidence)
            let st2 := st.set bestRef { bestOld with keypoints := newKps, confidence := maxConf }
            (st2, used ++ matchedPos ++ [i], outRefs ++ [bestRef]))
      (store1, [], [])
    (r.1, r.2.2.map (getDet r.1))

/-- FusionEngine._weighted_fusion: scale every detection's confidence in place
by the per-backend-type weight (the config's weights dict if non-empty, else
the hard-coded defaults), tag its source, then run _parallel_merge over a
single synthetic result holding all detections. -/
def weighted_fusion (cfg : FusionConfig) (store : Store)
    (results : List BackendOutput) : Store × List Detection :=
  let default_weights : List (BackendType × ℚ) :=
    [(.yolo, 1), (.deeplabcut, 6/5), (.sleap, 11/10)]
  let weights := if cfg.backend_weights.isEmpty then default_weights else cfg.backend_weights
  let store1 := results.foldl
    (fun st r =>
      let weight := (alookup weights r.backend_type).getD 1
      r.refs.foldl
        (fun st i =>
          let d := getDet st i
          st.set i { d with confidence := min 1 (d.confidence * weight),
                            backend_source := some r.backend_type }) st)
    store
  let all : List Nat := results.flatMap BackendOutput.refs
  parallel_merge cfg store1
    [{ backend_id := "weighted", backend_type := .yolo, refs := all }]

/-- FusionEngine._match_detections: greedy best-IoU-above-threshold matching
of two ref lists (strict improvement over the threshold seeds the search; a
matched index on the second side is consumed). -/
def match_detections (cfg : FusionConfig) (store : Store)
    (refs1 refs2 : List Nat) : List (Option Nat × Option Nat) :=
  let r := refs1.foldl
    (fun (acc : List Nat × List (Option Nat × Option Nat)) i =>
      let used2 := acc.1
      let best := (List.range refs2.length).foldl
        (fun (b : Option Nat × ℚ) idx =>
          if idx ∈ used2 then b
          else if ¬ (getDet store i).class_id = (getDet store (refs2.getD idx 0)).class_id then b
          else
            let iou := calculate_iou (getDet store i).bbox (getDet store (refs2.getD idx 0)).bbox
            if iou > b.2 then (some idx, iou) else b)
        (none, cfg.iou_threshold)
      match best.1 with
      | some idx => (used2 ++ [idx], acc.2 ++ [(some i, some (refs2.getD idx 0))])
      | none => (used2, acc.2 ++ [(some i, none)]))
    ([], [])
  r.2 ++ (List.range refs2.length).filterMap fun idx =>
    if idx ∈ r.1 then none else some (none, some (refs2.getD idx 0))

/-- Python's `x or y` on an optional tracker id: None and 0 are falsy. -/
def pyOrTrackerId (t1 t2 : Option ℤ) : Option ℤ :=
  match t1 with
  | none => t2
  | some v => if v = 0 then t2 else some v

/-- The loop of _cascade_fusion that selects the box-source result (the last
YOLO result wins). -/
def find_yolo_result (results : List BackendOutput) : Option BackendOutput :=
  results.foldl (fun acc r => if r.backend_type = BackendType.yolo then some r else acc) none

/-- The loop of _cascade_fusion that selects the pose-capable result (the last
DeepLabCut or SLEAP result wins). -/
def find_pose_result (results : List BackendOutput) : Option BackendOutput :=
  results.foldl
    (fun acc r =>
      if r.backend_type = BackendType.deeplabcut ∨ r.backend_type = BackendType.sleap
      then some r else acc) none

/-- FusionEngine._cascade_fusion: the last YOLO result supplies boxes, the
last DeepLabCut/SLEAP result supplies pose; matched pairs merge with the
YOLO box, the pose keypoints when present, and the configured confidence
aggregation.  No result is tagged and the store is never written. -/
def cascade_fusion (cfg : FusionConfig) (store : Store)
    (results : List BackendOutput) : Store × List Detection :=
  match find_yolo_result results with
  | none =>
      match results with
      | [] => (store, [])
      | r :: _ => (store, r.refs.map (getDet store))
  | some yr =>
    match find_pose_result results with
    | none => (store, yr.refs.map (getDet store))
    | some pr =>
      let pairs := match_detections cfg store yr.refs pr.refs
      (store, pairs.filterMap fun m =>
        match m with
        | (none, none) => none
        | (none, some j) => some (getDet store j)
        | (some i, none) => some (getDet store i)
        | (some i, some j) =>
          let yolo_det := getDet store i
          let pose_det := getDet store j
          some { class_id := yolo_det.class_id, class_name := yolo_det.class_name,
                 class_name_es := yolo_det.class_name_es,
                 confidence := aggregate_confidence cfg yolo_det.confidence pose_det.confidence,
                 bbox := yolo_det.bbox,
                 keypoints := if pose_det.keypoints.isEmpty then yolo_det.keypoints
                   else pose_det.keypoints,
                 tracker_id := pyOrTrackerId yolo_det.tracker_id pose_det.tracker_id,
                 backend_source := some BackendType.yolo })

/-- FusionEngine._first_wins_fusion: tag and return the first result's
detections, ignore the rest. -/
def first_wins_fusion (store : Store) (results : List BackendOutput) :
    Store × List Detection :=
  match results with
  | [] => (store, [])
  | r :: _ =>
      let st := tagSources store [r]
      (st, r.refs.map (getDet st))

/-- The FusedDetectionResult dataclass (in the heap model the retained
individual results are the per-backend outputs). -/
structure FusedDetectionResult where
  detections : List Detection
  inference_time_ms : ℚ
  frame_width : ℤ
  frame_height : ℤ
  backends_used : List BackendType
  fusion_strategy : String
  individual_results : List BackendOutput := []
deriving DecidableEq, Repr

/-- FusionEngine.process_parallel in the heap model.  The backends argument
lists each dispatched backend id with its outcome (none models a raised or
timed-out detect call, which the source catches and skips); elapsed_ms is the
wall-clock time the dispatch measured.  An empty backend map short-circuits to
an empty result with zero latency; otherwise the surviving results are fused
by the configured strategy and the measured latency is reported. -/
def process_parallel (cfg : FusionConfig) (store : Store) (frame_height frame_width : ℤ)
    (elapsed_ms : ℚ) (backends : List (String × Option BackendOutput)) :
    FusedDetectionResult :=
  if backends.isEmpty then
    { detections := [], inference_time_ms := 0, frame_width := frame_width,
      frame_height := frame_height, backends_used := [],
      fusion_strategy := strategyValue cfg.strategy }
  else
    let results : List BackendOutput := backends.filterMap Prod.snd
    let fused :=
      match cfg.strategy with
      | .consensus => consensus_fusion cfg store results
      | .cascade => cascade_fusion cfg store results
      | .parallel_merge => parallel_merge cfg store results
      | .weighted => weighted_fusion cfg store results
      | .first_wins => first_wins_fusion store results
    { detections := fused.2, inference_time_ms := elapsed_ms, frame_width := frame_width,
      frame_height := frame_height, backends_used := results.map BackendOutput.backend_type,
      fusion_strategy := strategyValue cfg.strategy, individual_results := results }

/-! ## Pipeline manager (src/backend/app/detection/pipeline_manager.py) -/

/-- The serialised value of a backend type, as in the Python str-enum. -/
def backendTypeValue : BackendType → String
  | .yolo => "yolo"
  | .deeplabcut => "deeplabcut"
  | .sleap => "sleap"

/-- BackendType(value): the str-enum constructor, raising (none) on an
unknown value. -/
def backendTypeOfValue (s : String) : Option BackendType :=
  if s = "yolo" then some .yolo
  else if s = "deeplabcut" then some .deeplabcut
  else if s = "sleap" then some .sleap
  else none

/-- A configured backend (the BackendInstance dataclass, minus the live
detector object). -/
structure BackendInst where
  backend_id : String
  backend_type : BackendType
  enabled : Bool := true
  model_name : String := ""
deriving DecidableEq, Repr

/-- One backend spec of a preset: the "type" and "model" entries of the
preset's backend config dict. -/
structure PresetBackend where
  type : String
  model : String := ""
deriving DecidableEq, Repr

/-- A preset (the PipelinePreset dataclass, restricted to the fields
apply_preset reads: id, backend specs and fusion config; name, description,
icon and features are display-only). -/
structure PipelinePreset where
  id : String
  backends : List PresetBackend
  fusion : FusionConfig
deriving DecidableEq, Repr

/-- The module-level PRESETS table, verbatim from the source. -/
def PRESETS : List (String × PipelinePreset) :=
  [ ("home_security",
      { id := "home_security",
        backends := [{ type := "yolo", model := "yolo11n.pt" }],
        fusion := { strategy := .first_wins } }),
    ("pet_monitor",
      { id := "pet_monitor",
        backends := [{ type := "yolo", model := "yolo11n.pt" },
                     { type := "deeplabcut", model := "superanimal_quadruped" }],
        fusion := { strategy := .cascade, prefer_pose_from := some .deeplabcut } }),
    ("high_precision",
      { id := "high_precision",
        backends := [{ type := "yolo", model := "yolo11m.pt" },
                     { type := "deeplabcut", model := "superanimal_quadruped" }],
        fusion := { strategy := .consensus, min_backends_agree := 2,
                    confidence_aggregation := "mean" } }),
    ("lab_research",
      { id := "lab_research",
        backends := [{ type := "sleap", model := "custom_trained" }],
        fusion := { strategy := .first_wins } }),
    ("wildlife",
      { id := "wildlife",
        backends := [{ type := "yolo", model := "yolo11n.pt" },
                     { type := "deeplabcut", model := "superanimal_quadruped" }],
        fusion := { strategy := .parallel_merge, prefer_pose_from := some .deeplabcut } }),
    ("industrial",
      { id := "industrial",
        backends := [{ type := "yolo", model := "yolo11m.pt" }],
        fusion := { strategy := .first_wins } }),
    ("custom",
      { id := "custom",
        backends := [],
        fusion := { strategy := .parallel_merge } }) ]

/-- The PipelineManager's mutable state: the backend registry, the fusion
engine's config, the active preset id and the fresh-id counter. -/
structure PMState where
  backends : List (String × BackendInst) := []
  fusion : FusionConfig := {}
  active_preset : Option String := none
  backend_counter : Nat := 0
deriving DecidableEq, Repr

/-- Which backend types have an importable detector: _create_detector returns
an instance for YOLO and, when the optional packages are importable, for
DeepLabCut and SLEAP; otherwise None and add_backend raises.  The availability
environment abstracts the import outcome. -/
def BackendAvail : Type := BackendType → Bool

/-- PipelineManager.add_backend: the counter is bumped and the id minted
before detector creation, so a failed creation (ValueError) leaves the bumped
counter behind, which the error value records.  A model-load failure is caught
and the backend is registered regardless, so it does not appear here. -/
def add_backend (avail : BackendAvail) (backend_type : BackendType)
    (model_name : String) (s : PMState) : Except PMState (String × PMState) :=
  let ctr := s.backend_counter + 1
  let backend_id := backendTypeValue backend_type ++ "_" ++ toString ctr
  if avail backend_type then
    .ok (backend_id,
      { s with backend_counter := ctr,
               backends := ainsert s.backends backend_id
                 { backend_id := backend_id, backend_type := backend_type,
                   enabled := true, model_name := model_name } })
  else .error { s with backend_counter := ctr }

/-- The backend-loading loop of apply_preset: convert each spec's type string
(raising on an unknown value) and add the backend; the first raise propagates
with the state reached so far. -/
def load_preset_backends (avail : BackendAvail) (specs : List PresetBackend)
    (s : PMState) : Except PMState PMState :=
  match specs with
  | [] => .ok s
  | spec :: rest =>
    match backendTypeOfValue spec.type with
    | none => .error s
    | some bt =>
      match add_backend avail bt spec.model s with
      | .error sErr => .error sErr
      | .ok r => load_preset_backends avail rest r.2

/-- The outcome of PipelineManager.apply_preset: unknown preset id (returns
False), an exception escaping from backend creation, or success (returns
True). -/
inductive ApplyOutcome
  | notFound
  | raised
  | applied
deriving DecidableEq, Repr

/-- PipelineManager.apply_preset: look the preset up, tear down all current
backends, install the preset's fusion config, load its backends, and only on
full success record the preset id as active. -/
def apply_preset (avail : BackendAvail) (preset_id : String) (s : PMState) :
    PMState × ApplyOutcome :=
  match alookup PRESETS preset_id with
  | none => (s, .notFound)
  | some preset =>
    let cleared : PMState := { s with backends := [] }
    let configured : PMState := { cleared with fusion := preset.fusion }
    match load_preset_backends avail preset.backends configured with
    | .error sErr => (sErr, .raised)
    | .ok sOk => ({ sOk with active_preset := some preset_id }, .applied)

/-- The backend/fusion state that preset idempotence compares: the sequence of
(type, model, enabled) of registered backends, the fusion config and the
active preset id - everything but the freshly generated ids and the counter. -/
def pmProj (s : PMState) : List (BackendType × String × Bool) × FusionConfig × Option String :=
  (s.backends.map fun kv => (kv.2.backend_type, kv.2.model_name, kv.2.enabled),
    s.fusion, s.active_preset)

/-! ## General lemmas about the association-list model -/

theorem alookup_mem {κ α : Type} [DecidableEq κ] {l : List (κ × α)} {k : κ} {v : α}
    (h : alookup l k = some v) : (k, v) ∈ l := by
  induction l with
  | nil => simp [alookup] at h
  | cons hd tl ih =>
      obtain ⟨k0, v0⟩ := hd
      by_cases hk : k = k0
      · subst hk
        simp [alookup] at h
        subst h
        exact List.mem_cons_self _ _
      · simp [alookup, hk] at h
        exact List.mem_cons_of_mem _ (ih h)

theorem alookup_eq_of_mem_nodup {κ α : Type} [DecidableEq κ] {l : List (κ × α)}
    {k : κ} {v : α} (hnd : (l.map Prod.fst).Nodup) (h : (k, v) ∈ l) :
    alookup l k = some v := by
  induction l with
  | nil => simp at h
  | cons hd tl ih =>
      obtain ⟨k0, v0⟩ := hd
      simp only [List.map_cons, List.nodup_cons] at hnd
      rcases List.mem_cons.mp h with h0 | h0
      · obtain ⟨rfl, rfl⟩ := Prod.mk.injEq _ _ _ _ ▸ h0
        simp [alookup]
      · have hk : ¬ k = k0 := by
          rintro rfl
          exact hnd.1 (List.mem_map.mpr ⟨(k, v), h0, rfl⟩)
        simp [alookup, hk, ih hnd.2 h0]

/-- The state carried by an add_zone exception (or its normal return). -/
def exceptState : Except ZMState ZMState → ZMState
  | .error s => s
  | .ok s => s

/-! ## C7: zone upsert with invalid geometry -/

/-- The valid square zone initially stored under id "z". -/
def C7squareZone : Zone :=
  { id := "z", name := "Square", zone_type := .warning,
    polygon := [(0, 0), (1, 0), (1, 1), (0, 1)] }

/-- A state in which "z" is registered with its compiled polygon. -/
def C7state : ZMState :=
  { zones := [("z", C7squareZone)],
    prepared := [("z", ⟨[(0, 0), (1, 0), (1, 1), (0, 1)]⟩)],
    object_zones := [] }

/-- An invalid upsert of "z": only two polygon points. -/
def C7badZone : Zone :=
  { id := "z", name := "Broken", zone_type := .danger, polygon := [(0, 0), (1, 1)] }

/-- C7 counterexample: upserting a 2-point polygon over the existing zone "z"
raises, yet the registry already holds the new zone in place of the old one,
so the previous zone does not remain unchanged as the claim states. -/
theorem C7_counterexample :
    (add_zone C7state C7badZone).isOk = false ∧
    alookup (exceptState (add_zone C7state C7badZone)).zones "z" = some C7badZone ∧
    alookup C7state.zones "z" = some C7squareZone ∧
    ¬ C7badZone = C7squareZone := by decide

/-- C7 (amended): an upsert whose polygon has fewer than 3 points is rejected
by an exception from polygon compilation, and on that error path the prepared
point-containment index is untouched - but the registry entry has already
been replaced with the new zone, so the previous zone value is lost. -/
theorem C7_invalid_upsert (s : ZMState) (z : Zone) (h : z.polygon.length < 3) :
    add_zone s z = .error { s with zones := ainsert s.zones z.id z } := by
  simp [add_zone, mkPolygon, h]

/-- C7 witness: the amended theorem applied to the concrete bad upsert. -/
theorem C7_invalid_upsert_witness :
    C7badZone.polygon.length < 3 ∧
    add_zone C7state C7badZone =
      .error { C7state with zones := ainsert C7state.zones "z" C7badZone } :=
  ⟨by decide, C7_invalid_upsert C7state C7badZone (by decide)⟩

/-! ## C8: IoU properties -/

/-- C8: for axis-aligned boxes with positive extent, the IoU of a box with
itself is 1; boxes whose intersection rectangle is empty have IoU 0; and IoU
is symmetric in its two arguments. -/
theorem C8_iou_properties (b1 b2 : ℚ × ℚ × ℚ × ℚ)
    (hx1 : b1.1 < b1.2.2.1) (hy1 : b1.2.1 < b1.2.2.2)
    (hx2 : b2.1 < b2.2.2.1) (hy2 : b2.2.1 < b2.2.2.2) :
    (b1 = b2 → calculate_iou b1 b2 = 1) ∧
    ((min b1.2.2.1 b2.2.2.1 ≤ max b1.1 b2.1 ∨ min b1.2.2.2 b2.2.2.2 ≤ max b1.2.1 b2.2.1) →
      calculate_iou b1 b2 = 0) ∧
    (∀ a b : ℚ × ℚ × ℚ × ℚ, calculate_iou a b = calculate_iou b a) := by
  refine ⟨?_, ?_, ?_⟩
  · rintro rfl
    obtain ⟨x1, y1, x2, y2⟩ := b1
    simp only at hx1 hy1
    have hA : 0 < (x2 - x1) * (y2 - y1) := mul_pos (by linarith) (by linarith)
    simp only [calculate_iou, max_self, min_self]
    rw [if_neg (by push_neg; constructor <;> linarith)]
    rw [if_pos (by linarith)]
    have hu : (x2 - x1) * (y2 - y1) + (x2 - x1) * (y2 - y1) - (x2 - x1) * (y2 - y1)
        = (x2 - x1) * (y2 - y1) := by ring
    rw [hu, div_self hA.ne']
  · intro h
    simp only [calculate_iou]
    rw [if_pos h]
  · intro a b
    obtain ⟨xa1, ya1, xa2, ya2⟩ := a
    obtain ⟨xb1, yb1, xb2, yb2⟩ := b
    simp only [calculate_iou]
    rw [min_comm xb2 xa2, max_comm xb1 xa1, min_comm yb2 ya2, max_comm yb1 ya1]
    have hu : (xb2 - xb1) * (yb2 - yb1) + (xa2 - xa1) * (ya2 - ya1)
        = (xa2 - xa1) * (ya2 - ya1) + (xb2 - xb1) * (yb2 - yb1) := by ring
    rw [hu]

/-- C8 witness: the three properties at explicit boxes. -/
theorem C8_iou_properties_witness :
    calculate_iou (0, 0, 2, 2) (0, 0, 2, 2) = 1 ∧
    calculate_iou (0, 0, 1, 1) (5, 5, 6, 6) = 0 ∧
    calculate_iou (0, 0, 1, 1) (0, 0, 2, 2) = calculate_iou (0, 0, 2, 2) (0, 0, 1, 1) := by
  refine ⟨?_, ?_, ?_⟩
  · exact (C8_iou_properties (0, 0, 2, 2) (0, 0, 2, 2)
      (by norm_num) (by norm_num) (by norm_num) (by norm_num)).1 rfl
  · exact (C8_iou_properties (0, 0, 1, 1) (5, 5, 6, 6)
      (by norm_num) (by norm_num) (by norm_num) (by norm_num)).2.1 (by norm_num)
  · exact (C8_iou_properties (0, 0, 1, 1) (0, 0, 1, 1)
      (by norm_num) (by norm_num) (by norm_num) (by norm_num)).2.2 (0, 0, 1, 1) (0, 0, 2, 2)

/-! ## C4: fusion when zero adapters succeed -/

/-- C4 counterexample: one dispatched backend that raised - zero adapters
succeeded - yet the returned result reports the measured elapsed time (here
5 ms), not a latency of zero as the claim states. -/
theorem C4_counterexample :
    (process_parallel {} [] 480 640 5 [("b1", none)]).detections = [] ∧
    (process_parallel {} [] 480 640 5 [("b1", none)]).backends_used = [] ∧
    (process_parallel {} [] 480 640 5 [("b1", none)]).inference_time_ms = 5 ∧
    ¬ (5 : ℚ) = 0 := by decide

/-- C4 (amended): whenever zero adapters succeed, process_parallel returns a
valid result with no detections and no backends used (no error escapes); the
reported latency is zero when the backend map is empty, and the measured
dispatch time when backends were dispatched but all failed. -/
theorem C4_zero_success (cfg : FusionConfig) (store : Store) (h w : ℤ) (elapsed : ℚ)
    (backends : List (String × Option BackendOutput))
    (hfail : ∀ b ∈ backends, b.2 = none) :
    (process_parallel cfg store h w elapsed backends).detections = [] ∧
    (process_parallel cfg store h w elapsed backends).backends_used = [] ∧
    (process_parallel cfg store h w elapsed backends).inference_time_ms =
      (if backends.isEmpty then 0 else elapsed) := by
  have hres : backends.filterMap Prod.snd = [] := by
    rw [List.filterMap_eq_nil_iff]
    exact hfail
  by_cases hb : backends.isEmpty
  · simp [process_parallel, hb]
  · cases hstrat : cfg.strategy <;>
      simp [process_parallel, hb, hres, hstrat, consensus_fusion, parallel_merge,
        weighted_fusion, cascade_fusion, find_yolo_result, find_pose_result,
        first_wins_fusion, tagSources]

/-- C4 witness: the amended theorem at a concrete all-failed dispatch and at
the empty backend map. -/
theorem C4_zero_success_witness :
    (process_parallel {} [] 480 640 7 [("a", none), ("b", none)]).detections = [] ∧
    (process_parallel {} [] 480 640 7 [("a", none), ("b", none)]).backends_used = [] ∧
    (process_parallel {} [] 480 640 7 [("a", none), ("b", none)]).inference_time_ms =
      (if ([("a", none), ("b", none)] : List (String × Option BackendOutput)).isEmpty
        then 0 else 7) :=
  C4_zero_success {} [] 480 640 7 [("a", none), ("b", none)] (by decide)

/-! ## Zone-manager lemmas -/

theorem check_point_f_none {zs : List (String × Zone)} {pt : ℚ × ℚ}
    {kp : String × PreparedPolygon} (h : alookup zs kp.1 = none) :
    check_point_f zs pt kp = none := by
  unfold check_point_f
  rw [h]

theorem check_point_f_some_eq {zs : List (String × Zone)} {pt : ℚ × ℚ}
    {kp : String × PreparedPolygon} {zone : Zone} (h : alookup zs kp.1 = some zone) :
    check_point_f zs pt kp =
      if zone.enabled && polyContains kp.2 pt then some zone else none := by
  unfold check_point_f
  rw [h]

theorem check_point_f_inv {zs : List (String × Zone)} {pt : ℚ × ℚ}
    {kp : String × PreparedPolygon} {z' : Zone}
    (hf : check_point_f zs pt kp = some z') :
    alookup zs kp.1 = some z' ∧ z'.enabled = true ∧ polyContains kp.2 pt = true := by
  rcases hl : alookup zs kp.1 with _ | zone
  · rw [check_point_f_none hl] at hf
    cases hf
  · rw [check_point_f_some_eq hl] at hf
    by_cases hc : zone.enabled && polyContains kp.2 pt
    · rw [if_pos hc] at hf
      obtain rfl := Option.some.inj hf
      rcases Bool.and_eq_true_iff.mp hc with ⟨h1, h2⟩
      exact ⟨rfl, h1, h2⟩
    · rw [if_neg hc] at hf
      cases hf

/-- Membership in check_point: exactly the enabled zones whose prepared
polygon contains the normalised point. -/
theorem mem_check_point {s : ZMState} {x y fw fh : ℚ} {z' : Zone} :
    z' ∈ check_point s x y fw fh ↔
      ∃ kpp : String × PreparedPolygon, kpp ∈ s.prepared ∧
        alookup s.zones kpp.1 = some z' ∧ z'.enabled = true ∧
        polyContains kpp.2 (x / fw, y / fh) = true := by
  unfold check_point
  simp only [List.mem_filterMap]
  constructor
  · rintro ⟨kpp, hmem, hf⟩
    obtain ⟨hl, hen, hcont⟩ := check_point_f_inv hf
    exact ⟨kpp, hmem, hl, hen, hcont⟩
  · rintro ⟨kpp, hmem, hl, hen, hcont⟩
    refine ⟨kpp, hmem, ?_⟩
    rw [check_point_f_some_eq hl, if_pos (by rw [hen, hcont]; rfl)]

/-- The ids returned by check_point form a sublist of the prepared index's
keys (so they are unique when the index's keys are). -/
theorem check_point_ids_sublist (zs : List (String × Zone)) (pt : ℚ × ℚ)
    (hco : ∀ p ∈ zs, (p.2 : Zone).id = p.1) :
    ∀ l : List (String × PreparedPolygon),
      ((l.filterMap (check_point_f zs pt)).map Zone.id).Sublist (l.map Prod.fst) := by
  intro l
  induction l with
  | nil => simp
  | cons kp tl ih =>
      rcases hf : check_point_f zs pt kp with _ | z'
      · simpa [List.filterMap_cons, hf] using ih.cons kp.1
      · obtain ⟨hl, _, _⟩ := check_point_f_inv hf
        have hid : z'.id = kp.1 := hco _ (alookup_mem hl)
        simpa [List.filterMap_cons, hf, hid] using ih.cons₂ kp.1

/-- A zone id in the current containment set belongs to an enabled registry
zone. -/
theorem mem_curIds_enabled {s : ZMState} {x y fw fh : ℚ} {zid : String} {z : Zone}
    (hco : ∀ p ∈ s.zones, (p.2 : Zone).id = p.1)
    (hz : alookup s.zones zid = some z)
    (h : zid ∈ (check_point s x y fw fh).map Zone.id) : z.enabled = true := by
  rcases List.mem_map.mp h with ⟨z', hz', hid⟩
  rcases mem_check_point.mp hz' with ⟨kpp, _, hl, hen, _⟩
  have hk : z'.id = kpp.1 := hco _ (alookup_mem hl)
  have hz'' : alookup s.zones zid = some z' := by
    have hkz : kpp.1 = zid := by rw [← hk, hid]
    rw [← hkz]
    exact hl
  rw [hz] at hz''
  obtain rfl := Option.some.inj hz''
  exact hen

/-- Full characterisation of membership of a given zone id in the current
containment set, given a well-formed state. -/
theorem mem_curIds_iff {s : ZMState} {x y fw fh : ℚ} {zid : String} {z : Zone}
    {pp : PreparedPolygon}
    (hco : ∀ p ∈ s.zones, (p.2 : Zone).id = p.1)
    (hkp : (s.prepared.map Prod.fst).Nodup)
    (hz : alookup s.zones zid = some z)
    (hp : alookup s.prepared zid = some pp) :
    zid ∈ (check_point s x y fw fh).map Zone.id ↔
      (z.enabled = true ∧ polyContains pp (x / fw, y / fh) = true) := by
  constructor
  · intro h
    rcases List.mem_map.mp h with ⟨z', hz', hid⟩
    rcases mem_check_point.mp hz' with ⟨kpp, hkmem, hl, hen, hcont⟩
    have hk : z'.id = kpp.1 := hco _ (alookup_mem hl)
    have hkz : kpp.1 = zid := by rw [← hk, hid]
    have hz'' : alookup s.zones zid = some z' := by rw [← hkz]; exact hl
    rw [hz] at hz''
    obtain rfl := Option.some.inj hz''
    have hpmem : (zid, kpp.2) ∈ s.prepared := by
      have hkpe : kpp = (zid, kpp.2) := Prod.ext hkz rfl
      rw [← hkpe]
      exact hkmem
    have hpp : alookup s.prepared zid = some kpp.2 := alookup_eq_of_mem_nodup hkp hpmem
    rw [hp] at hpp
    obtain hpe := Option.some.inj hpp
    exact ⟨hen, hpe ▸ hcont⟩
  · rintro ⟨hen, hcont⟩
    have hzmem : z ∈ check_point s x y fw fh :=
      mem_check_point.mpr ⟨(zid, pp), alookup_mem hp, hz, hen, hcont⟩
    have hid : z.id = zid := hco _ (alookup_mem hz)
    exact List.mem_map.mpr ⟨z, hzmem, hid⟩

/-- check_objects over a single object reduces to that object's events. -/
theorem check_objects_singleton (s : ZMState) (o : TrackedObj) (fw fh ts : ℚ) :
    (check_objects s [o] fw fh ts).1 = (object_events s o fw fh ts).1 := by
  simp [check_objects]

/-- Events emitted for one object carry that object's tracker identity. -/
theorem object_events_tracker {s : ZMState} {o : TrackedObj} {fw fh ts : ℚ}
    {e : ZoneEvent} (h : e ∈ (object_events s o fw fh ts).1) :
    e.tracker_id = o.tracker_id := by
  simp only [object_events, List.mem_append, List.mem_filterMap] at h
  rcases h with (⟨zid, _, hf⟩ | ⟨zid, _, hf⟩) | ⟨zid, _, hf⟩ <;>
    · rcases Option.map_eq_some'.mp hf with ⟨z', _, rfl⟩
      rfl

/-- The event list of check_objects is the concatenation of the per-object
event lists. -/
theorem check_objects_events_eq (s : ZMState) (objs : List TrackedObj) (fw fh ts : ℚ) :
    (check_objects s objs fw fh ts).1 = objs.flatMap fun o => (object_events s o fw fh ts).1 := by
  unfold check_objects
  suffices h : ∀ (objs : List TrackedObj) (acc : List ZoneEvent × List (ℤ × List String)),
      (objs.foldl (fun acc o =>
          let oe := object_events s o fw fh ts
          (acc.1 ++ oe.1, ainsert acc.2 oe.2.1 oe.2.2)) acc).1 =
        acc.1 ++ objs.flatMap fun o => (object_events s o fw fh ts).1 by
    simpa using h objs ([], [])
  intro objs
  induction objs with
  | nil => intro acc; simp
  | cons o tl ih => intro acc; simp [ih, List.flatMap_cons]

/-- Identities absent from the input emit no events at all. -/
theorem check_objects_absent (s : ZMState) (objs : List TrackedObj) (fw fh ts : ℚ)
    (tid : ℤ) (habs : ∀ o' ∈ objs, ¬ o'.tracker_id = tid) :
    (check_objects s objs fw fh ts).1.countP (fun e => decide (e.tracker_id = tid)) = 0 := by
  rw [check_objects_events_eq]
  rw [List.countP_eq_zero]
  intro e he
  rcases List.mem_flatMap.mp he with ⟨o', ho', hmem⟩
  have := object_events_tracker hmem
  simp only [decide_eq_true_eq]
  rw [this]
  exact habs o' ho'

/-- Count of a value in a filtered list. -/
theorem count_filter_eq {α : Type} [DecidableEq α] (l : List α) (p : α → Bool) (a : α) :
    (l.filter p).count a = if p a = true then l.count a else 0 := by
  induction l with
  | nil => simp
  | cons hd tl ih =>
      by_cases hp : p hd = true
      · by_cases ha : hd = a
        · subst ha
          simp [List.filter_cons, hp, List.count_cons, ih]
        · simp [List.filter_cons, hp, List.count_cons, ih, ha, Ne.symm ha]
      · by_cases ha : hd = a
        · subst ha
          simp [List.filter_cons, hp, List.count_cons, ih]
        · simp [List.filter_cons, hp, List.count_cons, ih, Ne.symm ha]

@[simp] theorem mkZoneEvent_zone_id (tid : ℤ) (cls zid : String) (z : Zone)
    (k : String) (ts : ℚ) : (mkZoneEvent tid cls zid z k ts).zone_id = zid := rfl

@[simp] theorem mkZoneEvent_event_type (tid : ℤ) (cls zid : String) (z : Zone)
    (k : String) (ts : ℚ) : (mkZoneEvent tid cls zid z k ts).event_type = k := rfl

@[simp] theorem mkZoneEvent_tracker_id (tid : ℤ) (cls zid : String) (z : Zone)
    (k : String) (ts : ℚ) : (mkZoneEvent tid cls zid z k ts).tracker_id = tid := rfl

/-- Count of the (zid, kind) events produced from a zone-id list via registry
lookups, when the kind of the built events is the kind counted: the id must
resolve in the registry, and then the count is its multiplicity in the
list. -/
theorem countP_mk_events_same (zs : List (String × Zone)) (l : List String)
    (tid : ℤ) (cls k zid : String) (ts : ℚ) :
    ((l.filterMap fun zid' => (alookup zs zid').map fun z' =>
        mkZoneEvent tid cls zid' z' k ts).countP
      fun e => decide (e.zone_id = zid ∧ e.event_type = k)) =
    if (alookup zs zid).isSome then l.count zid else 0 := by
  induction l with
  | nil => simp
  | cons zid' tl ih =>
      rw [List.filterMap_cons]
      rcases hl : alookup zs zid' with _ | z'
      · by_cases hza : zid = zid'
        · subst hza
          simp only [hl, Option.map_none']
          rw [ih, hl]
          simp
        · have hza2 : ¬ zid' = zid := fun h => hza h.symm
          simp only [hl, Option.map_none']
          rw [ih, List.count_cons]
          simp [hza, hza2]
      · by_cases hza : zid = zid'
        · subst hza
          simp only [hl, Option.map_some']
          rw [List.countP_cons, ih, hl, List.count_cons]
          simp
        · have hza2 : ¬ zid' = zid := fun h => hza h.symm
          simp only [hl, Option.map_some']
          rw [List.countP_cons, ih, List.count_cons]
          simp [hza, hza2]

/-- Events built with one kind contribute nothing to the count of another
kind. -/
theorem countP_mk_events_ne {zs : List (String × Zone)} {l : List String}
    {tid : ℤ} {cls k k2 zid : String} {ts : ℚ} (hk : ¬ k = k2) :
    ((l.filterMap fun zid' => (alookup zs zid').map fun z' =>
        mkZoneEvent tid cls zid' z' k ts).countP
      fun e => decide (e.zone_id = zid ∧ e.event_type = k2)) = 0 := by
  rw [List.countP_eq_zero]
  intro e he
  rcases List.mem_filterMap.mp he with ⟨zid', _, hf⟩
  rcases Option.map_eq_some'.mp hf with ⟨z', _, rfl⟩
  simp only [decide_eq_true_eq, mkZoneEvent_zone_id, mkZoneEvent_event_type]
  rintro ⟨_, hket⟩
  exact hk hket

/-! ## C10: disabling a zone mid-occupancy yields an exit event -/

/-- C10: if a zone is still registered but disabled while an identity's
stored snapshot contains it, the next check_objects call for that identity
emits an exit event for the pair - containment skips disabled zones, while
the exit branch only requires the id to remain in the registry. -/
theorem C10_disabled_zone_exit (s : ZMState) (z : Zone) (zid : String) (tid : ℤ)
    (o : TrackedObj) (prev : List String) (fw fh ts : ℚ)
    (hco : ∀ p ∈ s.zones, (p.2 : Zone).id = p.1)
    (hz : alookup s.zones zid = some z)
    (hdis : z.enabled = false)
    (hprev : alookup s.object_zones tid = some prev)
    (hmem : zid ∈ prev)
    (ho : o.tracker_id = tid) :
    mkZoneEvent tid o.class_name_es zid z "exit" ts ∈ (check_objects s [o] fw fh ts).1 := by
  rw [check_objects_singleton]
  have hnotin : ¬ zid ∈ (check_point s o.bottom_center.1 o.bottom_center.2 fw fh).map Zone.id := by
    intro h
    have := mem_curIds_enabled hco hz h
    rw [hdis] at this
    cases this
  unfold object_events
  simp only [List.mem_append, List.mem_filterMap]
  refine Or.inr ⟨zid, ?_, ?_⟩
  · rw [List.mem_filter]
    refine ⟨?_, ?_⟩
    · rw [ho, hprev]
      simpa using hmem
    · simpa using hnotin
  · rw [hz, ho]
    rfl

/-- The disabled zone of the C10 witness scenario. -/
def C10zone : Zone :=
  { id := "z", name := "Z", zone_type := .danger,
    polygon := [(0, 0), (1, 0), (1, 1), (0, 1)], enabled := false }

/-- A state whose snapshot says identity 7 is inside the now-disabled zone. -/
def C10state : ZMState :=
  { zones := [("z", C10zone)],
    prepared := [("z", ⟨[(0, 0), (1, 0), (1, 1), (0, 1)]⟩)],
    object_zones := [(7, ["z"])] }

/-- The tracked object of the C10 witness scenario. -/
def C10obj : TrackedObj :=
  { tracker_id := 7, class_name_es := "persona", bottom_center := (1/2, 1/2) }

/-- C10 witness: the theorem at the concrete disabled-zone state. -/
theorem C10_disabled_zone_exit_witness :
    mkZoneEvent 7 "persona" "z" C10zone "exit" 3 ∈ (check_objects C10state [C10obj] 1 1 3).1 :=
  C10_disabled_zone_exit C10state C10zone "z" 7 C10obj ["z"] 1 1 3
    (by decide) (by decide) (by decide) (by decide) (by decide) (by decide)

/-! ## C2: zone transition events -/

/-- The zone of the C2 scenarios: the whole unit square, enabled. -/
def C2zone : Zone :=
  { id := "z1", name := "Zone 1", zone_type := .warning,
    polygon := [(0, 0), (1, 0), (1, 1), (0, 1)] }

/-- A fresh zone-manager state holding only C2zone. -/
def C2state : ZMState :=
  { zones := [("z1", C2zone)],
    prepared := [("z1", ⟨[(0, 0), (1, 0), (1, 1), (0, 1)]⟩)],
    object_zones := [] }

/-- The tracked object of the C2 scenarios, at normalised point (0.5, 0.5). -/
def C2obj : TrackedObj :=
  { tracker_id := 7, class_name_es := "persona", bottom_center := (1/2, 1/2) }

/-- C2 counterexample: the object enters the zone on frame one ("enter" is
emitted), but on the next frame, with the identity absent from the input, the
call emits no events at all - in particular no "exit" event, contrary to the
claim that an exit is emitted on the first frame the identity is absent. -/
theorem C2_counterexample :
    ((check_objects C2state [C2obj] 1 1 0).1.map ZoneEvent.event_type = ["enter"]) ∧
    (check_objects (check_objects C2state [C2obj] 1 1 0).2 [] 1 1 1).1 = [] := by
  norm_num [check_objects, object_events, check_point, check_point_f, polyContains,
    polyEdges, rayCrossesEdge, alookup, ainsert, C2state, C2zone, C2obj, mkZoneEvent,
    List.filterMap_cons, List.filterMap_nil, Function.comp]

/-- C2 (amended): per call, for a registered enabled zone and a present
object, exactly one "enter" event for the pair is emitted when the normalised
point is inside and the zone was not in the identity's snapshot, exactly one
"inside" event when inside and already in the snapshot, and exactly one
"exit" event when outside and in the snapshot; an identity absent from the
input emits no events at all (rather than an exit event). -/
theorem C2_zone_transition_events (s : ZMState) (z : Zone) (zid : String)
    (pp : PreparedPolygon) (o : TrackedObj) (prev : List String) (fw fh ts : ℚ)
    (hco : ∀ p ∈ s.zones, (p.2 : Zone).id = p.1)
    (hkp : (s.prepared.map Prod.fst).Nodup)
    (hz : alookup s.zones zid = some z)
    (hp : alookup s.prepared zid = some pp)
    (hen : z.enabled = true)
    (hprev : (alookup s.object_zones o.tracker_id).getD [] = prev)
    (hnd : prev.Nodup) :
    (((check_objects s [o] fw fh ts).1.countP fun e =>
        decide (e.zone_id = zid ∧ e.event_type = "enter")) =
      if polyContains pp (o.bottom_center.1 / fw, o.bottom_center.2 / fh) = true ∧ ¬ zid ∈ prev
      then 1 else 0) ∧
    (((check_objects s [o] fw fh ts).1.countP fun e =>
        decide (e.zone_id = zid ∧ e.event_type = "inside")) =
      if polyContains pp (o.bottom_center.1 / fw, o.bottom_center.2 / fh) = true ∧ zid ∈ prev
      then 1 else 0) ∧
    (((check_objects s [o] fw fh ts).1.countP fun e =>
        decide (e.zone_id = zid ∧ e.event_type = "exit")) =
      if ¬ polyContains pp (o.bottom_center.1 / fw, o.bottom_center.2 / fh) = true ∧ zid ∈ prev
      then 1 else 0) ∧
    (∀ (objs : List TrackedObj) (ts2 : ℚ), (∀ o' ∈ objs, ¬ o'.tracker_id = o.tracker_id) →
      (check_objects s objs fw fh ts2).1.countP
        (fun e => decide (e.tracker_id = o.tracker_id)) = 0) := by
  have hiff : zid ∈ (check_point s o.bottom_center.1 o.bottom_center.2 fw fh).map Zone.id ↔
      polyContains pp (o.bottom_center.1 / fw, o.bottom_center.2 / fh) = true := by
    rw [mem_curIds_iff hco hkp hz hp]
    simp [hen]
  have hnd_cur : ((check_point s o.bottom_center.1 o.bottom_center.2 fw fh).map Zone.id).Nodup :=
    (check_point_ids_sublist s.zones
      (o.bottom_center.1 / fw, o.bottom_center.2 / fh) hco s.prepared).nodup hkp
  have hcount_cur :
      ((check_point s o.bottom_center.1 o.bottom_center.2 fw fh).map Zone.id).count zid
        = if polyContains pp (o.bottom_center.1 / fw, o.bottom_center.2 / fh) = true
          then 1 else 0 := by
    by_cases hcont : polyContains pp (o.bottom_center.1 / fw, o.bottom_center.2 / fh) = true
    · rw [if_pos hcont]
      exact List.count_eq_one_of_mem hnd_cur (hiff.mpr hcont)
    · rw [if_neg hcont]
      exact List.count_eq_zero_of_not_mem fun h => hcont (hiff.mp h)
  have hcount_prev : prev.count zid = if zid ∈ prev then 1 else 0 := by
    by_cases hm : zid ∈ prev
    · rw [if_pos hm]
      exact List.count_eq_one_of_mem hnd hm
    · rw [if_neg hm]
      exact List.count_eq_zero_of_not_mem hm
  refine ⟨?_, ?_, ?_, ?_⟩
  · rw [check_objects_singleton]
    unfold object_events
    simp only [List.countP_append]
    rw [countP_mk_events_same, countP_mk_events_ne (by decide : ¬ "inside" = "enter"),
      countP_mk_events_ne (by decide : ¬ "exit" = "enter")]
    rw [hz, hprev, count_filter_eq, hcount_cur]
    by_cases hm : zid ∈ prev <;>
      by_cases hcont : polyContains pp (o.bottom_center.1 / fw, o.bottom_center.2 / fh) = true <;>
        simp [hm, hcont]
  · rw [check_objects_singleton]
    unfold object_events
    simp only [List.countP_append]
    rw [countP_mk_events_ne (by decide : ¬ "enter" = "inside"), countP_mk_events_same,
      countP_mk_events_ne (by decide : ¬ "exit" = "inside")]
    rw [hz, hprev, count_filter_eq, hcount_cur]
    by_cases hm : zid ∈ prev <;>
      by_cases hcont : polyContains pp (o.bottom_center.1 / fw, o.bottom_center.2 / fh) = true <;>
        simp [hm, hcont]
  · rw [check_objects_singleton]
    unfold object_events
    simp only [List.countP_append]
    rw [countP_mk_events_ne (by decide : ¬ "enter" = "exit"),
      countP_mk_events_ne (by decide : ¬ "inside" = "exit"), countP_mk_events_same]
    rw [hz, hprev, count_filter_eq, hcount_prev]
    by_cases hm : zid ∈ prev <;>
      by_cases hcont : polyContains pp (o.bottom_center.1 / fw, o.bottom_center.2 / fh) = true <;>
        simp [hm, hcont, hiff]
  · intro objs ts2 habs
    exact check_objects_absent s objs fw fh ts2 o.tracker_id habs

/-- C2 witness: the amended theorem at the concrete fresh state - the first
frame inside the zone produces exactly one enter event, and a call whose
input does not contain the identity produces no events for it. -/
theorem C2_zone_transition_events_witness :
    (((check_objects C2state [C2obj] 1 1 0).1.countP fun e =>
        decide (e.zone_id = "z1" ∧ e.event_type = "enter")) = 1) ∧
    ((check_objects C2state [] 1 1 1).1.countP
      (fun e => decide (e.tracker_id = C2obj.tracker_id)) = 0) := by
  have h := C2_zone_transition_events C2state C2zone "z1"
    ⟨[(0, 0), (1, 0), (1, 1), (0, 1)]⟩ C2obj [] 1 1 0
    (by decide) (by decide) (by decide) (by decide) (by decide) (by decide) (by decide)
  refine ⟨?_, h.2.2.2 [] 1 (by decide)⟩
  rw [h.1]
  norm_num [polyContains, polyEdges, rayCrossesEdge, C2obj]

/-! ## C1: alert notifier debounce -/

/-- The parameters of the C1 debounce scenario: identity, zone, class,
allow-list, config values, the first event's kind and the five call times. -/
structure C1Params where
  tid : ℤ
  zid : String
  zname : String
  cls : String
  zt : ZoneType
  acs : List String
  mc : ℚ
  c : ℚ
  k1 : String
  t1 : ℚ
  t2 : ℚ
  t3 : ℚ
  t4 : ℚ
  t5 : ℚ

/-- The alert config of the C1 scenario: min_frames_in_zone 3, cooldown c. -/
def C1cfg (p : C1Params) : AlertConfig :=
  { enabled := true, min_confidence := p.mc, min_frames_in_zone := 3,
    cooldown_seconds := p.c, alert_classes := p.acs }

/-- A zone event of the C1 scenario with the given kind and timestamp. -/
def C1ev (p : C1Params) (k : String) (t : ℚ) : ZoneEvent :=
  { tracker_id := p.tid, class_name := p.cls, zone_id := p.zid, zone_name := p.zname,
    zone_type := p.zt, event_type := k, timestamp := t }

/-- Call 1: the first qualifying event, processed from a fresh notifier. -/
def C1r1 (p : C1Params) : List Alert × NotifierState :=
  process_zone_events (C1cfg p) ({} : NotifierState) [C1ev p p.k1 p.t1] p.t1

/-- Call 2: the second qualifying event. -/
def C1r2 (p : C1Params) : List Alert × NotifierState :=
  process_zone_events (C1cfg p) (C1r1 p).2 [C1ev p "inside" p.t2] p.t2

/-- Call 3: the third qualifying event. -/
def C1r3 (p : C1Params) : List Alert × NotifierState :=
  process_zone_events (C1cfg p) (C1r2 p).2 [C1ev p "inside" p.t3] p.t3

/-- Call 4: a fourth qualifying event, inside the cooldown window. -/
def C1r4 (p : C1Params) : List Alert × NotifierState :=
  process_zone_events (C1cfg p) (C1r3 p).2 [C1ev p "inside" p.t4] p.t4

/-- Call 5: a qualifying event after the cooldown window has elapsed. -/
def C1r5 (p : C1Params) : List Alert × NotifierState :=
  process_zone_events (C1cfg p) (C1r4 p).2 [C1ev p "inside" p.t5] p.t5

/-- C1: with min_frames_in_zone 3, an enter (or inside) event followed by two
inside events for the same (identity, zone) yields no alert on the first two
calls and exactly one alert on the call processing the third event; a fourth
qualifying event while the (class, zone) cooldown window has not elapsed
yields no alert; and once the cooldown window has elapsed, the next
qualifying event yields exactly one more alert. -/
theorem C1_alert_debounce (p : C1Params)
    (hk1 : p.k1 = "enter" ∨ p.k1 = "inside")
    (hcls : p.cls.toLower ∈ p.acs.map String.toLower)
    (h3 : p.c ≤ p.t3) (h4 : p.t4 - p.t3 < p.c) (h5 : p.c ≤ p.t5 - p.t3) :
    (C1r1 p).1 = [] ∧ (C1r2 p).1 = [] ∧ (C1r3 p).1.length = 1 ∧
      (C1r4 p).1 = [] ∧ (C1r5 p).1.length = 1 := by
  have hnc3 : ¬ (p.t3 < p.c) := not_lt.mpr h3
  have hnc5 : ¬ (p.t5 - p.t3 < p.c) := not_lt.mpr h5
  have h1 : C1r1 p = ([], ⟨[(get_key p.tid p.zid, 1)], [], []⟩) := by
    rcases hk1 with hk | hk <;>
      simp [C1r1, process_zone_events, notifier_step, C1cfg, C1ev, hk, hcls,
        List.filter_cons, List.filter_nil]
  have h2 : C1r2 p = ([], ⟨[(get_key p.tid p.zid, 2)], [], []⟩) := by
    simp [C1r2, h1, process_zone_events, notifier_step, C1cfg, C1ev, hcls,
      List.filter_cons, List.filter_nil]
  have h3s : C1r3 p = ([create_alert (C1ev p "inside" p.t3)],
      ⟨[(get_key p.tid p.zid, 3)], [(get_cooldown_key p.cls p.zid, p.t3)],
        [create_alert (C1ev p "inside" p.t3)]⟩) := by
    simp [C1r3, h2, process_zone_events, notifier_step, C1cfg, C1ev, hcls,
      is_in_cooldown, hnc3, List.filter_cons, List.filter_nil]
  have h4s : C1r4 p = ([], ⟨[(get_key p.tid p.zid, 4)], [(get_cooldown_key p.cls p.zid, p.t3)],
      [create_alert (C1ev p "inside" p.t3)]⟩) := by
    simp [C1r4, h3s, process_zone_events, notifier_step, C1cfg, C1ev, hcls,
      is_in_cooldown, h4, List.filter_cons, List.filter_nil]
  have h5s : (C1r5 p).1 = [create_alert (C1ev p "inside" p.t5)] := by
    simp [C1r5, h4s, process_zone_events, notifier_step, C1cfg, C1ev, hcls,
      is_in_cooldown, hnc5, List.filter_cons, List.filter_nil]
  exact ⟨by rw [h1], by rw [h2], by rw [h3s]; rfl, by rw [h4s], by rw [h5s]; rfl⟩

/-- Concrete parameters for the C1 witness: an enter at t=1000 followed by
inside events at 1001, 1002, 1003 and 1040 with a 30-second cooldown. -/
def C1params : C1Params :=
  { tid := 1, zid := "z", zname := "Zone", cls := "persona", zt := .danger,
    acs := ["persona", "perro", "gato", "niño"], mc := 7/10, c := 30, k1 := "enter",
    t1 := 1000, t2 := 1001, t3 := 1002, t4 := 1003, t5 := 1040 }

/-- C1 witness: the debounce theorem at the concrete parameters. -/
theorem C1_alert_debounce_witness :
    (C1r1 C1params).1 = [] ∧ (C1r2 C1params).1 = [] ∧ (C1r3 C1params).1.length = 1 ∧
      (C1r4 C1params).1 = [] ∧ (C1r5 C1params).1.length = 1 :=
  C1_alert_debounce C1params (Or.inl rfl) (by simp [C1params]) (by norm_num [C1params])
    (by norm_num [C1params]) (by norm_num [C1params])

/-! ## C3, C5, C6: fusion strategy behaviour -/

/-- Evaluation of a consensus cluster of two detections from two distinct
backends of matching class and sufficient IoU: one merged detection whose
confidence is the cluster mean, regardless of the aggregation mode. -/
theorem consensus_pair (cfg : FusionConfig) (d1 d2 : Detection) (id1 id2 : String)
    (bt1 bt2 : BackendType)
    (hmin : cfg.min_backends_agree ≤ 2)
    (hid : ¬ id1 = id2)
    (hcls : d1.class_id = d2.class_id)
    (hiou : cfg.iou_threshold ≤ calculate_iou d1.bbox d2.bbox) :
    ((consensus_fusion cfg [d1, d2]
        [⟨id1, bt1, [0], 0, 0, 0⟩, ⟨id2, bt2, [1], 0, 0, 0⟩]).2.length = 1) ∧
    (((consensus_fusion cfg [d1, d2]
        [⟨id1, bt1, [0], 0, 0, 0⟩, ⟨id2, bt2, [1], 0, 0, 0⟩]).2.headD default).confidence
      = (d1.confidence + d2.confidence) / 2) := by
  have hiou2 : ¬ (calculate_iou d1.bbox d2.bbox < cfg.iou_threshold) := not_lt.mpr hiou
  constructor <;>
    · simp [consensus_fusion, tagSources, getDet, hid, hcls, hiou, hiou2, hmin,
        List.range_succ, merge_keypoints]
      try norm_num

/-- Evaluation of a parallel_merge cluster of two detections of matching
class and sufficient IoU: one merged detection whose confidence is the
cluster max, regardless of the aggregation mode. -/
theorem parallel_pair (cfg : FusionConfig) (d1 d2 : Detection) (id1 id2 : String)
    (bt1 bt2 : BackendType)
    (hcls : d1.class_id = d2.class_id)
    (hiou : cfg.iou_threshold ≤ calculate_iou d1.bbox d2.bbox) :
    ((parallel_merge cfg [d1, d2]
        [⟨id1, bt1, [0], 0, 0, 0⟩, ⟨id2, bt2, [1], 0, 0, 0⟩]).2.length = 1) ∧
    (((parallel_merge cfg [d1, d2]
        [⟨id1, bt1, [0], 0, 0, 0⟩, ⟨id2, bt2, [1], 0, 0, 0⟩]).2.headD default).confidence
      = max d1.confidence d2.confidence) := by
  have hiou2 : ¬ (calculate_iou d1.bbox d2.bbox < cfg.iou_threshold) := not_lt.mpr hiou
  rcases lt_or_le d1.confidence d2.confidence with hc | hc
  · constructor <;>
      simp [parallel_merge, tagSources, getDet, hcls, hiou, hiou2, hc, List.range_succ,
        merge_keypoints, maxByConf, pyMax, max_comm]
  · have hc2 : ¬ d1.confidence < d2.confidence := not_lt.mpr hc
    constructor <;>
      simp [parallel_merge, tagSources, getDet, hcls, hiou, hiou2, hc2, List.range_succ,
        merge_keypoints, maxByConf, pyMax]

/-- Evaluation of a cascade merge of a YOLO box detection with a matching
pose detection: one merged detection whose confidence is computed by the
configured aggregation mode. -/
theorem cascade_pair (cfg : FusionConfig) (d1 d2 : Detection) (id1 id2 : String)
    (hcls : d1.class_id = d2.class_id)
    (hiou : cfg.iou_threshold < calculate_iou d1.bbox d2.bbox) :
    ((cascade_fusion cfg [d1, d2]
        [⟨id1, .yolo, [0], 0, 0, 0⟩, ⟨id2, .deeplabcut, [1], 0, 0, 0⟩]).2.length = 1) ∧
    (((cascade_fusion cfg [d1, d2]
        [⟨id1, .yolo, [0], 0, 0, 0⟩, ⟨id2, .deeplabcut, [1], 0, 0, 0⟩]).2.headD default).confidence
      = aggregate_confidence cfg d1.confidence d2.confidence) := by
  have hiou2 : ¬ (calculate_iou d1.bbox d2.bbox ≤ cfg.iou_threshold) := not_le.mpr hiou
  constructor <;>
    simp [cascade_fusion, find_yolo_result, find_pose_result, match_detections, getDet,
      hcls, hiou, hiou2, List.range_succ, pyOrTrackerId]

/-- With two backend results present but detections coming only from one
backend, a consensus cluster of size one dies under min_backends_agree 2. -/
theorem consensus_two_results_one_det (cfg : FusionConfig) (d1 : Detection)
    (id1 id2 : String) (bt1 bt2 : BackendType)
    (hmin : cfg.min_backends_agree = 2) :
    (consensus_fusion cfg [d1]
        [⟨id1, bt1, [0], 0, 0, 0⟩, ⟨id2, bt2, [], 0, 0, 0⟩]).2 = [] := by
  simp [consensus_fusion, tagSources, getDet, hmin, List.range_succ]

/-- The observable fields of a stored detection that C6 says fusion must not
change: confidence, bounding box and keypoints. -/
def projCBK (d : Detection) : ℚ × (ℚ × ℚ × ℚ × ℚ) × List Keypoint :=
  (d.confidence, d.bbox, d.keypoints)

/-- Overwriting one stored detection's backend_source tag preserves its
confidence, bbox and keypoints. -/
theorem set_tag_map_projCBK (st : Store) (i : Nat) (b : BackendType) :
    (st.set i { getDet st i with backend_source := some b }).map projCBK = st.map projCBK := by
  induction st generalizing i with
  | nil => simp
  | cons hd tl ih =>
      cases i with
      | zero => simp [getDet, projCBK]
      | succ n =>
          have h := ih n
          show projCBK hd :: (tl.set n { getDet tl n with backend_source := some b }).map projCBK
              = projCBK hd :: tl.map projCBK
          rw [h]

/-- The per-result tagging loop preserves every stored detection's
confidence, bbox and keypoints. -/
theorem refs_tag_map_projCBK (refs : List Nat) (b : BackendType) (st : Store) :
    ((refs.foldl (fun st i => st.set i { getDet st i with backend_source := some b }) st).map
      projCBK) = st.map projCBK := by
  induction refs generalizing st with
  | nil => rfl
  | cons r rs ih => rw [List.foldl_cons, ih, set_tag_map_projCBK]

/-- tagSources only overwrites backend_source tags: every stored detection's
confidence, bbox and keypoints survive. -/
theorem tagSources_map_projCBK (results : List BackendOutput) (store : Store) :
    (tagSources store results).map projCBK = store.map projCBK := by
  induction results generalizing store with
  | nil => rfl
  | cons r rs ih =>
      have h : tagSources store (r :: rs) =
          tagSources (r.refs.foldl
            (fun st i => st.set i { getDet st i with backend_source := some r.backend_type })
            store) rs := rfl
      rw [h, ih, refs_tag_map_projCBK]

/-- C6 (amended): consensus fusion leaves every stored input detection's
confidence, bounding box and keypoints unchanged (it only overwrites the
backend_source tags and builds new merged instances), and cascade fusion
never writes the store at all; the claim's universal statement fails for
parallel_merge and weighted fusion, which mutate stored inputs in place (see
the counterexample). -/
theorem C6_strategy_input_preservation :
    (∀ (cfg : FusionConfig) (store : Store) (results : List BackendOutput),
      (consensus_fusion cfg store results).1.map projCBK = store.map projCBK) ∧
    (∀ (cfg : FusionConfig) (store : Store) (results : List BackendOutput),
      (cascade_fusion cfg store results).1 = store) := by
  constructor
  · intro cfg store results
    unfold consensus_fusion
    split
    · split <;> rfl
    · exact tagSources_map_projCBK results store
  · intro cfg store results
    unfold cascade_fusion
    rcases find_yolo_result results with _ | yr
    · rcases results with _ | ⟨r, rs⟩ <;> rfl
    · rcases find_pose_result results with _ | pr <;> rfl

/-- A stored detection whose confidence weighted fusion mutates in place. -/
def C6det : Detection :=
  { class_id := 0, class_name := "dog", class_name_es := "perro",
    confidence := 1/2, bbox := (0, 0, 10, 10) }

/-- C6 counterexample: weighted fusion with default weights multiplies the
stored DeepLabCut detection's confidence by 1.2 in place - the input
detection's confidence changes from 1/2 to 3/5, so detections are not left
unchanged by every strategy. -/
theorem C6_counterexample :
    C6det.confidence = 1/2 ∧
    ((weighted_fusion {} [C6det] [⟨"dlc", .deeplabcut, [0], 0, 0, 0⟩]).1.map
      Detection.confidence = [3/5]) ∧
    ¬ (3/5 : ℚ) = 1/2 := by
  refine ⟨rfl, ?_, by norm_num⟩
  have hby : ¬ BackendType.deeplabcut = BackendType.yolo := by decide
  norm_num [weighted_fusion, parallel_merge, tagSources, getDet, alookup,
    List.range_succ, maxByConf, pyMax, merge_keypoints, hby, C6det, inf_eq_min, min_def]

/-- C3 (amended): with min_backends_agree 2, two backends each reporting one
detection of the same class with IoU at or above the threshold fuse to
exactly one detection whose confidence is the mean of the two; and when two
backend results are present but only one contains detections, the output is
empty.  (When only one backend result is present, consensus returns that
backend's detections unchanged - see the counterexample.) -/
theorem C3_consensus_min2 (cfg : FusionConfig) (d1 d2 : Detection) (id1 id2 : String)
    (bt1 bt2 : BackendType)
    (hmin : cfg.min_backends_agree = 2)
    (hid : ¬ id1 = id2)
    (hcls : d1.class_id = d2.class_id)
    (hiou : cfg.iou_threshold ≤ calculate_iou d1.bbox d2.bbox) :
    ((consensus_fusion cfg [d1, d2]
        [⟨id1, bt1, [0], 0, 0, 0⟩, ⟨id2, bt2, [1], 0, 0, 0⟩]).2.length = 1) ∧
    (((consensus_fusion cfg [d1, d2]
        [⟨id1, bt1, [0], 0, 0, 0⟩, ⟨id2, bt2, [1], 0, 0, 0⟩]).2.headD default).confidence
      = (d1.confidence + d2.confidence) / 2) ∧
    ((consensus_fusion cfg [d1]
        [⟨id1, bt1, [0], 0, 0, 0⟩, ⟨id2, bt2, [], 0, 0, 0⟩]).2 = []) := by
  obtain ⟨ha, hb⟩ := consensus_pair cfg d1 d2 id1 id2 bt1 bt2 (le_of_eq hmin) hid hcls hiou
  exact ⟨ha, hb, consensus_two_results_one_det cfg d1 id1 id2 bt1 bt2 hmin⟩

/-- The consensus configuration of the C3 scenario. -/
def C3cfg : FusionConfig :=
  { strategy := .consensus, min_backends_agree := 2, iou_threshold := 1/2,
    confidence_aggregation := "mean" }

/-- First detection of the C3/C5 scenarios. -/
def C3d1 : Detection :=
  { class_id := 0, class_name := "person", class_name_es := "persona",
    confidence := 9/10, bbox := (0, 0, 10, 10) }

/-- Second detection of the C3/C5 scenarios: same class and box, lower
confidence. -/
def C3d2 : Detection :=
  { class_id := 0, class_name := "person", class_name_es := "persona",
    confidence := 3/5, bbox := (0, 0, 10, 10) }

/-- C3 counterexample: when only one backend's result is present, consensus
with min_backends_agree 2 returns that backend's detections unchanged, not
zero detections as the claim states. -/
theorem C3_counterexample :
    (consensus_fusion C3cfg [C3d1] [⟨"b1", .yolo, [0], 0, 0, 0⟩]).2 = [C3d1] ∧
    ¬ ([C3d1] : List Detection) = [] := by
  exact ⟨rfl, by simp⟩

/-- C3 witness: the amended theorem at concrete detections. -/
theorem C3_consensus_min2_witness :
    ((consensus_fusion C3cfg [C3d1, C3d2]
        [⟨"a", .yolo, [0], 0, 0, 0⟩, ⟨"b", .deeplabcut, [1], 0, 0, 0⟩]).2.length = 1) ∧
    (((consensus_fusion C3cfg [C3d1, C3d2]
        [⟨"a", .yolo, [0], 0, 0, 0⟩, ⟨"b", .deeplabcut, [1], 0, 0, 0⟩]).2.headD
      default).confidence = (C3d1.confidence + C3d2.confidence) / 2) ∧
    ((consensus_fusion C3cfg [C3d1]
        [⟨"a", .yolo, [0], 0, 0, 0⟩, ⟨"b", .deeplabcut, [], 0, 0, 0⟩]).2 = []) :=
  C3_consensus_min2 C3cfg C3d1 C3d2 "a" "b" .yolo .deeplabcut rfl (by decide) rfl
    (by norm_num [calculate_iou, C3cfg, C3d1, C3d2])

/-- C5 (amended): for a merged pair of detections, parallel_merge fixes the
cluster confidence to the max and consensus to the mean whatever the
configured aggregation mode is; only cascade's merge rule applies the
configured confidence-aggregation mode. -/
theorem C5_confidence_aggregation (cfg : FusionConfig) (d1 d2 : Detection)
    (id1 id2 : String) (bt1 bt2 : BackendType)
    (hmin : cfg.min_backends_agree ≤ 2)
    (hid : ¬ id1 = id2)
    (hcls : d1.class_id = d2.class_id)
    (hiou : cfg.iou_threshold < calculate_iou d1.bbox d2.bbox) :
    (((parallel_merge cfg [d1, d2]
        [⟨id1, bt1, [0], 0, 0, 0⟩, ⟨id2, bt2, [1], 0, 0, 0⟩]).2.headD default).confidence
      = max d1.confidence d2.confidence) ∧
    (((consensus_fusion cfg [d1, d2]
        [⟨id1, bt1, [0], 0, 0, 0⟩, ⟨id2, bt2, [1], 0, 0, 0⟩]).2.headD default).confidence
      = (d1.confidence + d2.confidence) / 2) ∧
    (((cascade_fusion cfg [d1, d2]
        [⟨id1, .yolo, [0], 0, 0, 0⟩, ⟨id2, .deeplabcut, [1], 0, 0, 0⟩]).2.headD
      default).confidence = aggregate_confidence cfg d1.confidence d2.confidence) :=
  ⟨(parallel_pair cfg d1 d2 id1 id2 bt1 bt2 hcls (le_of_lt hiou)).2,
   (consensus_pair cfg d1 d2 id1 id2 bt1 bt2 hmin hid hcls (le_of_lt hiou)).2,
   (cascade_pair cfg d1 d2 id1 id2 hcls hiou).2⟩

/-- A fusion config whose aggregation mode is "min". -/
def C5cfg : FusionConfig :=
  { strategy := .parallel_merge, iou_threshold := 1/2, confidence_aggregation := "min" }

/-- C5 counterexample: with confidence_aggregation "min", a parallel_merge
cluster of confidences 0.9 and 0.6 produces confidence 0.9 (the hard-coded
max), not the configured mode's 0.6. -/
theorem C5_counterexample :
    C5cfg.confidence_aggregation = "min" ∧
    (((parallel_merge C5cfg [C3d1, C3d2]
        [⟨"a", .yolo, [0], 0, 0, 0⟩, ⟨"b", .yolo, [1], 0, 0, 0⟩]).2.headD
      default).confidence = 9/10) ∧
    min (9/10 : ℚ) (3/5) = 3/5 ∧ ¬ (9/10 : ℚ) = 3/5 := by
  have h := (parallel_pair C5cfg C3d1 C3d2 "a" "b" .yolo .yolo rfl
    (by norm_num [calculate_iou, C5cfg, C3d1, C3d2])).2
  refine ⟨rfl, ?_, by norm_num, by norm_num⟩
  rw [h]
  norm_num [C3d1, C3d2]

/-- C5 witness: the amended theorem at concrete detections under the "min"
mode. -/
theorem C5_confidence_aggregation_witness :
    (((parallel_merge C5cfg [C3d1, C3d2]
        [⟨"a", .yolo, [0], 0, 0, 0⟩, ⟨"b", .yolo, [1], 0, 0, 0⟩]).2.headD default).confidence
      = max C3d1.confidence C3d2.confidence) ∧
    (((consensus_fusion C5cfg [C3d1, C3d2]
        [⟨"a", .yolo, [0], 0, 0, 0⟩, ⟨"b", .yolo, [1], 0, 0, 0⟩]).2.headD default).confidence
      = (C3d1.confidence + C3d2.confidence) / 2) ∧
    (((cascade_fusion C5cfg [C3d1, C3d2]
        [⟨"a", .yolo, [0], 0, 0, 0⟩, ⟨"b", .deeplabcut, [1], 0, 0, 0⟩]).2.headD
      default).confidence = aggregate_confidence C5cfg C3d1.confidence C3d2.confidence) :=
  C5_confidence_aggregation C5cfg C3d1 C3d2 "a" "b" .yolo .yolo (by decide) (by decide) rfl
    (by norm_num [calculate_iou, C5cfg, C3d1, C3d2])

/-! ## C9: preset idempotence -/

/-- Backend ids minted for distinct backend types never collide: the id
starts with the type's enum value, and the three values differ pairwise. -/
theorem backendId_ne (b1 b2 : BackendType) (m n : Nat) (hb : ¬ b1 = b2) :
    ¬ (backendTypeValue b1 ++ "_" ++ toString m = backendTypeValue b2 ++ "_" ++ toString n) := by
  cases b1 <;> cases b2 <;> first
    | exact absurd rfl hb
    | · intro h
        have h2 := congrArg String.data h
        simp [String.data_append, backendTypeValue] at h2

/-- C9: for every known preset id, applying the preset twice in a row yields
a backend/fusion state equivalent to applying it once - the same sequence of
(backend type, model name, enabled) instances, the same fusion configuration
and the same active-preset id - whatever the detector-availability
environment; only the freshly minted backend ids and the counter differ.
The outcome (applied, or raised mid-load) is also the same. -/
theorem C9_preset_idempotent (avail : BackendAvail) (preset_id : String) (s : PMState)
    (hp : (alookup PRESETS preset_id).isSome = true) :
    pmProj (apply_preset avail preset_id (apply_preset avail preset_id s).1).1 =
      pmProj (apply_preset avail preset_id s).1 ∧
    (apply_preset avail preset_id (apply_preset avail preset_id s).1).2 =
      (apply_preset avail preset_id s).2 := by
  by_cases h1 : preset_id = "home_security"
  · subst h1
    cases hy : avail BackendType.yolo <;>
      simp [apply_preset, PRESETS, alookup, load_preset_backends, add_backend,
        backendTypeOfValue, pmProj, ainsert, hy]
  by_cases h2 : preset_id = "pet_monitor"
  · subst h2
    cases hy : avail BackendType.yolo <;> cases hd : avail BackendType.deeplabcut <;>
      simp [apply_preset, PRESETS, alookup, load_preset_backends, add_backend,
        backendTypeOfValue, pmProj, ainsert, hy, hd, backendId_ne]
  by_cases h3 : preset_id = "high_precision"
  · subst h3
    cases hy : avail BackendType.yolo <;> cases hd : avail BackendType.deeplabcut <;>
      simp [apply_preset, PRESETS, alookup, load_preset_backends, add_backend,
        backendTypeOfValue, pmProj, ainsert, hy, hd, backendId_ne]
  by_cases h4 : preset_id = "lab_research"
  · subst h4
    cases hs : avail BackendType.sleap <;>
      simp [apply_preset, PRESETS, alookup, load_preset_backends, add_backend,
        backendTypeOfValue, pmProj, ainsert, hs]
  by_cases h5 : preset_id = "wildlife"
  · subst h5
    cases hy : avail BackendType.yolo <;> cases hd : avail BackendType.deeplabcut <;>
      simp [apply_preset, PRESETS, alookup, load_preset_backends, add_backend,
        backendTypeOfValue, pmProj, ainsert, hy, hd, backendId_ne]
  by_cases h6 : preset_id = "industrial"
  · subst h6
    cases hy : avail BackendType.yolo <;>
      simp [apply_preset, PRESETS, alookup, load_preset_backends, add_backend,
        backendTypeOfValue, pmProj, ainsert, hy]
  by_cases h7 : preset_id = "custom"
  · subst h7
    simp [apply_preset, PRESETS, alookup, load_preset_backends, pmProj]
  · exfalso
    simp [PRESETS, alookup, h1, h2, h3, h4, h5, h6, h7] at hp

/-- C9 witness: the home_security preset applied twice from the fresh manager
state with every backend type importable. -/
theorem C9_preset_idempotent_witness :
    pmProj (apply_preset (fun _ => true) "home_security"
        (apply_preset (fun _ => true) "home_security" {}).1).1 =
      pmProj (apply_preset (fun _ => true) "home_security" {}).1 ∧
    (apply_preset (fun _ => true) "home_security"
        (apply_preset (fun _ => true) "home_security" {}).1).2 =
      (apply_preset (fun _ => true) "home_security" {}).2 :=
  C9_preset_idempotent (fun _ => true) "home_security" {} (by decide)

end Argos
